import Mathlib

/-!
Shallow embedding of `token-metadata/program/src/escrow/create_escrow_account.rs`
(metaplex-program-library): the `create_escrow_account` instruction builder and
the `process_create_escrow_account` processor, together with theorems checking
the specification's claims about them.

Public keys are modelled as natural numbers (only equality of keys matters to
this module).  External collaborators (metadata deserialization, the SPL token
account decoder, the token-standard classifier, PDA derivation verification and
the account allocator) are parameters of the processor, gathered in `Env`.
-/

set_option autoImplicit false

namespace CreateEscrow

/-- A Solana public key, modelled by its 32-byte value as a natural number. -/
abbrev Pubkey := Nat

/-- Modelled from the spec: the crate's hardcoded program identity, `crate::id()`
(the constant is declared outside this file's source). Its concrete value is
irrelevant to this module; only its role as a distinguished constant matters. -/
def crateId : Pubkey := 1000

/-- Modelled from the spec: the token program's identity, `spl_token::id()`
(external crate constant). -/
def splTokenId : Pubkey := 1001

/-- Modelled from the spec: the system allocator program's identity,
`solana_program::system_program::id()` (external crate constant). -/
def systemProgramId : Pubkey := 0

/-- The fields of `solana_program::account_info::AccountInfo` that this module
reads: the account's address, its owning program and its signer flag. -/
structure AccountInfo where
  key : Pubkey
  owner : Pubkey
  isSigner : Bool
  deriving DecidableEq, Repr

/-- Error type covering the `MetadataError` variants raised in this module,
`ProgramError::NotEnoughAccountKeys` raised by `next_account_info`, and the
errors the spec names for the external collaborators. -/
inductive ProgErr where
  | NotEnoughAccountKeys
  | InvalidInstructionAccounts
  | IllegalOwner
  | MissingSignature
  | MintMismatch
  | MustBeNonFungible
  | NotEnoughTokens
  | DerivedKeyInvalid
  | BorshSerializationError
  | AllocationFailed
  deriving DecidableEq, Repr

/-- The `TokenStandard` classification (from `state`, outside this source file);
only the distinction of `NonFungible` from the other kinds matters here. -/
inductive TokenStandard where
  | NonFungible
  | FungibleAsset
  | Fungible
  | NonFungibleEdition
  deriving DecidableEq, Repr

/-- The account-type discriminant `Key` (from `state`); only the
`TokenOwnedEscrow` tag is used by this module. -/
inductive Key where
  | Uninitialized
  | MetadataV1
  | TokenOwnedEscrow
  deriving DecidableEq, Repr

/-- The `EscrowAuthority` sum type (from `state`): either the token account's
current owner, or an explicitly supplied creator principal. -/
inductive EscrowAuthority where
  | TokenOwner
  | Creator (k : Pubkey)
  deriving DecidableEq, Repr

/-- The part of the `Metadata` record this module reads: its stored mint. -/
structure Metadata where
  mint : Pubkey
  deriving DecidableEq, Repr

/-- The fields of `spl_token::state::Account` this module reads. -/
structure SplTokenAccount where
  mint : Pubkey
  owner : Pubkey
  amount : Nat
  deriving DecidableEq, Repr

/-- The `TokenOwnedEscrow` record built and persisted by the processor. -/
structure TokenOwnedEscrow where
  key : Key
  baseToken : Pubkey
  authority : EscrowAuthority
  bump : Nat
  deriving DecidableEq, Repr

/-- Little-endian 32-byte expansion of a public key, used by the serializer. -/
def pubkeyBytes (k : Pubkey) : List Nat :=
  (List.range 32).map fun i => k / 256 ^ i % 256

/-- Modelled from the spec: the binary layout of the persisted escrow record
(`borsh` encoding of `TokenOwnedEscrow`, implemented outside this source file):
discriminant byte, 32-byte mint, authority tag byte with an optional 32-byte
payload, bump byte. Total (it cannot fail), matching `try_to_vec` on this
record. -/
def serializeTokenOwnedEscrow (toe : TokenOwnedEscrow) : List Nat :=
  let keyByte : Nat := match toe.key with
    | Key.Uninitialized => 0
    | Key.MetadataV1 => 4
    | Key.TokenOwnedEscrow => 9
  let authBytes : List Nat := match toe.authority with
    | EscrowAuthority.TokenOwner => [0]
    | EscrowAuthority.Creator k => 1 :: pubkeyBytes k
  keyByte :: (pubkeyBytes toe.baseToken ++ authBytes ++ [toe.bump % 256])

/-- Modelled from the spec: `find_escrow_seeds` (in `escrow/pda.rs`, outside
this source file) computes the deterministic seed sequence from the mint
address and the authority variant; the processor passes the result opaquely to
the derivation collaborator. -/
def findEscrowSeeds (mint : Pubkey) (auth : EscrowAuthority) : List (List Nat) :=
  match auth with
  | EscrowAuthority.TokenOwner => [pubkeyBytes mint, [0]]
  | EscrowAuthority.Creator k => [pubkeyBytes mint, [1], pubkeyBytes k]

/-- Modelled from the spec: `assert_owned_by` (in `utils`, outside this source
file) fails with the ownership error when the account's owning program differs
from the expected one. -/
def assertOwnedBy (acc : AccountInfo) (owner : Pubkey) : Except ProgErr Unit :=
  if acc.owner = owner then Except.ok () else Except.error ProgErr.IllegalOwner

/-- Modelled from the spec: `assert_signer` (in `utils`, outside this source
file) fails with the missing-signature error when the account did not sign. -/
def assertSigner (acc : AccountInfo) : Except ProgErr Unit :=
  if acc.isSigner then Except.ok () else Except.error ProgErr.MissingSignature

/-- Embedding of `solana_program::account_info::next_account_info`: pop the
next account from the iterator, failing with `NotEnoughAccountKeys` when the
iterator is exhausted. -/
def nextAccountInfo : List AccountInfo → Except ProgErr (AccountInfo × List AccountInfo)
  | [] => Except.error ProgErr.NotEnoughAccountKeys
  | a :: rest => Except.ok (a, rest)

/-- The first mint cross-check (lines 87-89): the metadata record's stored mint
must equal the supplied mint account's address, else `MintMismatch`. -/
def metadataMintCheck (metadata : Metadata) (mintKey : Pubkey) : Except ProgErr Unit :=
  if metadata.mint ≠ mintKey then Except.error ProgErr.MintMismatch else Except.ok ()

/-- The second mint cross-check (lines 102-104): the deserialized token
account's mint must equal the supplied mint account's address, else
`MintMismatch`. -/
def tokenMintCheck (tok : SplTokenAccount) (mintKey : Pubkey) : Except ProgErr Unit :=
  if tok.mint ≠ mintKey then Except.error ProgErr.MintMismatch else Except.ok ()

/-- The balance check (lines 106-108): the token account's amount must be at
least 1, else `NotEnoughTokens`. -/
def tokenAmountCheck (tok : SplTokenAccount) : Except ProgErr Unit :=
  if tok.amount < 1 then Except.error ProgErr.NotEnoughTokens else Except.ok ()

/-- The third mint cross-check (lines 110-112): the token account's mint must
equal the metadata's stored mint, else `MintMismatch`. -/
def tokenMetadataMintCheck (tok : SplTokenAccount) (metadata : Metadata) : Except ProgErr Unit :=
  if tok.mint ≠ metadata.mint then Except.error ProgErr.MintMismatch else Except.ok ()

/-- The ledger state visible to this module: each account's stored bytes, as an
association list from address to data. -/
abbrev Ledger := List (Pubkey × List Nat)

/-- Overwrite one account's stored bytes (the effect of `sol_memcpy` into the
escrow account's data). -/
def writeAccountData (l : Ledger) (k : Pubkey) (bytes : List Nat) : Ledger :=
  match l with
  | [] => [(k, bytes)]
  | (k', b) :: rest =>
      if k' = k then (k, bytes) :: rest else (k', b) :: writeAccountData rest k bytes

/-- The external collaborators the processor consumes, as oracle functions:
metadata deserialization (`Metadata::from_account_info`), the asset classifier
(`check_token_standard`), the SPL token-account decoder (`assert_initialized`),
the derivation verifier (`assert_derivation`, returning the bump), and the
account allocator (`create_or_allocate_account_raw`, taking the owning program,
the target, the system program, the payer, the size and the signer seeds, and
transforming the ledger). -/
structure Env where
  metadataFromAccountInfo : AccountInfo → Except ProgErr Metadata
  checkTokenStandard : AccountInfo → Option AccountInfo → Except ProgErr TokenStandard
  assertInitialized : AccountInfo → Except ProgErr SplTokenAccount
  assertDerivation : Pubkey → AccountInfo → List (List Nat) → Except ProgErr Nat
  createOrAllocate : Pubkey → AccountInfo → AccountInfo → AccountInfo → Nat →
    List (List Nat) → Ledger → Except ProgErr Unit × Ledger

/-- The data computed by the validation and derivation steps (steps 1-11),
before any state-mutating step: the accounts needed later, the escrow record,
its serialized bytes, the signer seeds, and the program identity that was
passed to the derivation check. -/
structure ChecksOut where
  escrowInfo : AccountInfo
  systemInfo : AccountInfo
  payerInfo : AccountInfo
  toe : TokenOwnedEscrow
  serialized : List Nat
  escrowAuthoritySeeds : List (List Nat)
  derivationProgramId : Pubkey
  deriving DecidableEq, Repr

/-- The outcome of a successful run: the persisted escrow record, the program
identity used for the derivation check, the owning program passed to the
allocator, and the write performed by `sol_memcpy`. -/
structure ProcOutcome where
  toe : TokenOwnedEscrow
  derivationProgramId : Pubkey
  allocOwner : Pubkey
  escrowKey : Pubkey
  written : List Nat
  deriving DecidableEq, Repr

/-- Steps 1-11 of `process_create_escrow_account` (lines 61-141): account
intake via seven `next_account_info` calls, the optional-authority detection
(`is_using_authority` holds exactly when one account remains), ownership and
signer checks, metadata load and first mint check, token-standard check,
effective-creator selection, token-account load with the second mint check,
balance check and third mint check, authority-variant resolution, seed
computation, derivation check against `crate::id()`, record construction and
serialization. No ledger mutation happens here. -/
def processChecks (env : Env) (programId : Pubkey) (accounts : List AccountInfo) :
    Except ProgErr ChecksOut := do
  let (escrowAccountInfo, r1) ← nextAccountInfo accounts
  let (metadataAccountInfo, r2) ← nextAccountInfo r1
  let (mintAccountInfo, r3) ← nextAccountInfo r2
  let (tokenAccountInfo, r4) ← nextAccountInfo r3
  let (editionAccountInfo, r5) ← nextAccountInfo r4
  let (payerAccountInfo, r6) ← nextAccountInfo r5
  let (systemAccountInfo, r7) ← nextAccountInfo r6
  let isUsingAuthority := r7.length == 1
  let maybeAuthorityInfo : Option AccountInfo ←
    if isUsingAuthority then do
      let (authorityInfo, _) ← nextAccountInfo r7
      pure (some authorityInfo)
    else
      pure none
  let _ ← assertOwnedBy metadataAccountInfo programId
  let _ ← assertOwnedBy mintAccountInfo splTokenId
  let _ ← assertOwnedBy tokenAccountInfo splTokenId
  let _ ← assertSigner payerAccountInfo
  let metadata ← env.metadataFromAccountInfo metadataAccountInfo
  let _ ← metadataMintCheck metadata mintAccountInfo.key
  let standard ← env.checkTokenStandard mintAccountInfo (some editionAccountInfo)
  let _ ← if standard ≠ TokenStandard.NonFungible then
      Except.error ProgErr.MustBeNonFungible
    else
      Except.ok ()
  let creator := maybeAuthorityInfo.getD payerAccountInfo
  let tokenAccount ← env.assertInitialized tokenAccountInfo
  let _ ← tokenMintCheck tokenAccount mintAccountInfo.key
  let _ ← tokenAmountCheck tokenAccount
  let _ ← tokenMetadataMintCheck tokenAccount metadata
  let creatorType := if tokenAccount.owner = creator.key then
      EscrowAuthority.TokenOwner
    else
      EscrowAuthority.Creator creator.key
  let escrowSeeds := findEscrowSeeds mintAccountInfo.key creatorType
  let bump ← env.assertDerivation crateId escrowAccountInfo escrowSeeds
  let escrowAuthoritySeeds := escrowSeeds ++ [[bump]]
  let toe : TokenOwnedEscrow :=
    { key := Key.TokenOwnedEscrow
      baseToken := mintAccountInfo.key
      authority := creatorType
      bump := bump }
  let serializedData := serializeTokenOwnedEscrow toe
  pure { escrowInfo := escrowAccountInfo
         systemInfo := systemAccountInfo
         payerInfo := payerAccountInfo
         toe := toe
         serialized := serializedData
         escrowAuthoritySeeds := escrowAuthoritySeeds
         derivationProgramId := crateId }

/-- `process_create_escrow_account` (lines 57-159): run the validation and
derivation steps, then the two state-mutating steps — allocation through the
allocator collaborator (owned by the `program_id` parameter, sized to the
serialized record, funded by the payer) and the `sol_memcpy` write-through of
the serialized bytes into the escrow account. -/
def processCreateEscrowAccount (env : Env) (programId : Pubkey)
    (accounts : List AccountInfo) (ledger : Ledger) :
    Except ProgErr ProcOutcome × Ledger :=
  match processChecks env programId accounts with
  | Except.error e => (Except.error e, ledger)
  | Except.ok pre =>
    match env.createOrAllocate programId pre.escrowInfo pre.systemInfo pre.payerInfo
        pre.serialized.length pre.escrowAuthoritySeeds ledger with
    | (Except.error e, l) => (Except.error e, l)
    | (Except.ok _, l) =>
      (Except.ok { toe := pre.toe
                   derivationProgramId := pre.derivationProgramId
                   allocOwner := programId
                   escrowKey := pre.escrowInfo.key
                   written := pre.serialized },
       writeAccountData l pre.escrowInfo.key pre.serialized)

/-- The wire-instruction account-reference type (`AccountMeta`). -/
structure AccountMeta where
  pubkey : Pubkey
  isSigner : Bool
  isWritable : Bool
  deriving DecidableEq, Repr

/-- `AccountMeta::new`: a writable account reference. -/
def accountMetaNew (k : Pubkey) (s : Bool) : AccountMeta :=
  { pubkey := k, isSigner := s, isWritable := true }

/-- `AccountMeta::new_readonly`: a read-only account reference. -/
def accountMetaNewReadonly (k : Pubkey) (s : Bool) : AccountMeta :=
  { pubkey := k, isSigner := s, isWritable := false }

/-- Modelled from the spec: the opcode tag identifying the create-escrow
instruction; the serialized `MetadataInstruction::CreateEscrowAccount` (the
enum is declared outside this source file) is the tag byte alone, with zero
further payload. -/
def createEscrowAccountInstructionData : List Nat := [38]

/-- The wire instruction: target program, ordered account list, data bytes. -/
structure Instruction where
  programId : Pubkey
  accounts : List AccountMeta
  data : List Nat
  deriving DecidableEq, Repr

/-- The `create_escrow_account` instruction builder (lines 22-55): the fixed
seven account references, a conditional eighth read-only signing authority, and
the serialized opcode as the data. -/
def create_escrow_account (programId escrowAccount metadataAccount mintAccount
    tokenAccount editionAccount payerAccount : Pubkey)
    (authority : Option Pubkey) : Instruction :=
  let accounts :=
    [accountMetaNew escrowAccount false,
     accountMetaNewReadonly metadataAccount false,
     accountMetaNewReadonly mintAccount false,
     accountMetaNewReadonly tokenAccount false,
     accountMetaNewReadonly editionAccount false,
     accountMetaNew payerAccount true,
     accountMetaNewReadonly systemProgramId false]
  let accounts := match authority with
    | some a => accounts ++ [accountMetaNewReadonly a true]
    | none => accounts
  { programId := programId
    accounts := accounts
    data := createEscrowAccountInstructionData }

/-! Concrete instances used by the witnesses: an environment whose
collaborators all succeed consistently (metadata mint and token mint both
equal to the supplied mint account's address 12, token owned by the payer's
address 15 with amount 1), and variants that make one collaborator report a
deviating value. -/

/-- A collaborator environment for which every check can pass. -/
def envOk : Env :=
  { metadataFromAccountInfo := fun _ => Except.ok { mint := 12 }
    checkTokenStandard := fun _ _ => Except.ok TokenStandard.NonFungible
    assertInitialized := fun _ => Except.ok { mint := 12, owner := 15, amount := 1 }
    assertDerivation := fun _ _ _ => Except.ok 255
    createOrAllocate := fun _ _ _ _ _ _ l => (Except.ok (), l) }

/-- Like `envOk`, but the asset classifier reports `Fungible` and the token
account decoder reports a zero balance. -/
def envFungible : Env :=
  { envOk with
    checkTokenStandard := fun _ _ => Except.ok TokenStandard.Fungible
    assertInitialized := fun _ => Except.ok { mint := 12, owner := 15, amount := 0 } }

/-- Like `envOk`, but the metadata record's stored mint deviates. -/
def envBadMetadataMint : Env :=
  { envOk with metadataFromAccountInfo := fun _ => Except.ok { mint := 99 } }

/-- Like `envOk`, but the decoded token account's mint deviates. -/
def envBadTokenMint : Env :=
  { envOk with
    assertInitialized := fun _ => Except.ok { mint := 99, owner := 15, amount := 1 } }

/-- Like `envOk`, but the decoded token account's balance is zero. -/
def envZeroAmount : Env :=
  { envOk with
    assertInitialized := fun _ => Except.ok { mint := 12, owner := 15, amount := 0 } }

/-- A seven-account list (escrow, metadata, mint, token account, edition,
payer, system program) compatible with `envOk` under program identity 7. -/
def accountsOk : List AccountInfo :=
  [{ key := 10, owner := crateId, isSigner := false },
   { key := 11, owner := 7, isSigner := false },
   { key := 12, owner := splTokenId, isSigner := false },
   { key := 13, owner := splTokenId, isSigner := false },
   { key := 14, owner := 7, isSigner := false },
   { key := 15, owner := 0, isSigner := true },
   { key := 0, owner := 0, isSigner := false }]

/-- An explicit authority account, distinct from the token owner. -/
def authorityAcc : AccountInfo := { key := 20, owner := 0, isSigner := true }

/-- The eight-account shape: `accountsOk` plus the explicit authority. -/
def accountsWithAuthority : List AccountInfo := accountsOk ++ [authorityAcc]

/-- A nine-account list: `accountsOk` plus two extra accounts. -/
def accountsNine : List AccountInfo :=
  accountsOk ++ [authorityAcc, { key := 21, owner := 0, isSigner := false }]

/-- The decoded token account `envOk.assertInitialized` reports. -/
def tokOk : SplTokenAccount := { mint := 12, owner := 15, amount := 1 }

/-- The escrow record a successful `envOk` run without explicit authority
builds: the token owner (15) equals the payer's address, so the variant is
`TokenOwner`. -/
def toeOkPayer : TokenOwnedEscrow :=
  { key := Key.TokenOwnedEscrow, baseToken := 12,
    authority := EscrowAuthority.TokenOwner, bump := 255 }

/-- The outcome of a successful `envOk` run without explicit authority. -/
def outcomeOkPayer : ProcOutcome :=
  { toe := toeOkPayer, derivationProgramId := crateId, allocOwner := 7,
    escrowKey := 10, written := serializeTokenOwnedEscrow toeOkPayer }

/-- The escrow record a successful `envOk` run with explicit authority 20
builds: the token owner (15) differs from the authority, so the variant is
`Creator 20`. -/
def toeOkCreator : TokenOwnedEscrow :=
  { key := Key.TokenOwnedEscrow, baseToken := 12,
    authority := EscrowAuthority.Creator 20, bump := 255 }

/-- The outcome of a successful `envOk` run with explicit authority 20. -/
def outcomeOkCreator : ProcOutcome :=
  { toe := toeOkCreator, derivationProgramId := crateId, allocOwner := 7,
    escrowKey := 10, written := serializeTokenOwnedEscrow toeOkCreator }

/-- The validation output a successful `processChecks` run constructs, given
the escrow, payer and system accounts, the mint account's address, the
effective creator's address, the decoded token account and the bump returned
by the derivation check. -/
def builtChecksOut (a0 a5 a6 : AccountInfo) (mintKey creatorKey : Pubkey)
    (tok : SplTokenAccount) (bump : Nat) : ChecksOut :=
  let creatorType := if tok.owner = creatorKey then EscrowAuthority.TokenOwner
    else EscrowAuthority.Creator creatorKey
  let toe : TokenOwnedEscrow :=
    { key := Key.TokenOwnedEscrow, baseToken := mintKey, authority := creatorType,
      bump := bump }
  { escrowInfo := a0, systemInfo := a6, payerInfo := a5, toe := toe,
    serialized := serializeTokenOwnedEscrow toe,
    escrowAuthoritySeeds := findEscrowSeeds mintKey creatorType ++ [[bump]],
    derivationProgramId := crateId }

/-- Copy of `processChecks` with only the third mint cross-check (lines
110-112 of the source) removed; introduced solely to compare with the real
pipeline and show that check's failure branch is unreachable. -/
def processChecksSkipThirdMintCheck (env : Env) (programId : Pubkey)
    (accounts : List AccountInfo) : Except ProgErr ChecksOut := do
  let (escrowAccountInfo, r1) ← nextAccountInfo accounts
  let (metadataAccountInfo, r2) ← nextAccountInfo r1
  let (mintAccountInfo, r3) ← nextAccountInfo r2
  let (tokenAccountInfo, r4) ← nextAccountInfo r3
  let (editionAccountInfo, r5) ← nextAccountInfo r4
  let (payerAccountInfo, r6) ← nextAccountInfo r5
  let (systemAccountInfo, r7) ← nextAccountInfo r6
  let isUsingAuthority := r7.length == 1
  let maybeAuthorityInfo : Option AccountInfo ←
    if isUsingAuthority then do
      let (authorityInfo, _) ← nextAccountInfo r7
      pure (some authorityInfo)
    else
      pure none
  let _ ← assertOwnedBy metadataAccountInfo programId
  let _ ← assertOwnedBy mintAccountInfo splTokenId
  let _ ← assertOwnedBy tokenAccountInfo splTokenId
  let _ ← assertSigner payerAccountInfo
  let metadata ← env.metadataFromAccountInfo metadataAccountInfo
  let _ ← metadataMintCheck metadata mintAccountInfo.key
  let standard ← env.checkTokenStandard mintAccountInfo (some editionAccountInfo)
  let _ ← if standard ≠ TokenStandard.NonFungible then
      Except.error ProgErr.MustBeNonFungible
    else
      Except.ok ()
  let creator := maybeAuthorityInfo.getD payerAccountInfo
  let tokenAccount ← env.assertInitialized tokenAccountInfo
  let _ ← tokenMintCheck tokenAccount mintAccountInfo.key
  let _ ← tokenAmountCheck tokenAccount
  let creatorType := if tokenAccount.owner = creator.key then
      EscrowAuthority.TokenOwner
    else
      EscrowAuthority.Creator creator.key
  let escrowSeeds := findEscrowSeeds mintAccountInfo.key creatorType
  let bump ← env.assertDerivation crateId escrowAccountInfo escrowSeeds
  let escrowAuthoritySeeds := escrowSeeds ++ [[bump]]
  let toe : TokenOwnedEscrow :=
    { key := Key.TokenOwnedEscrow
      baseToken := mintAccountInfo.key
      authority := creatorType
      bump := bump }
  let serializedData := serializeTokenOwnedEscrow toe
  pure { escrowInfo := escrowAccountInfo
         systemInfo := systemAccountInfo
         payerInfo := payerAccountInfo
         toe := toe
         serialized := serializedData
         escrowAuthoritySeeds := escrowAuthoritySeeds
         derivationProgramId := crateId }

/-- Copy of `processCreateEscrowAccount` running the pipeline without the
third mint cross-check; introduced solely for the unreachability comparison. -/
def processCreateEscrowAccountSkipThirdMintCheck (env : Env) (programId : Pubkey)
    (accounts : List AccountInfo) (ledger : Ledger) :
    Except ProgErr ProcOutcome × Ledger :=
  match processChecksSkipThirdMintCheck env programId accounts with
  | Except.error e => (Except.error e, ledger)
  | Except.ok pre =>
    match env.createOrAllocate programId pre.escrowInfo pre.systemInfo pre.payerInfo
        pre.serialized.length pre.escrowAuthoritySeeds ledger with
    | (Except.error e, l) => (Except.error e, l)
    | (Except.ok _, l) =>
      (Except.ok { toe := pre.toe
                   derivationProgramId := pre.derivationProgramId
                   allocOwner := programId
                   escrowKey := pre.escrowInfo.key
                   written := pre.serialized },
       writeAccountData l pre.escrowInfo.key pre.serialized)

/-! Helper lemmas about `Except` bind, used to trace the processor's pipeline. -/

theorem ok_bind {α β : Type} (a : α) (f : α → Except ProgErr β) :
    (Except.ok a : Except ProgErr α) >>= f = f a := rfl

theorem error_bind {α β : Type} (e : ProgErr) (f : α → Except ProgErr β) :
    (Except.error e : Except ProgErr α) >>= f = Except.error e := rfl

theorem pure_bind' {α β : Type} (a : α) (f : α → Except ProgErr β) :
    (pure a : Except ProgErr α) >>= f = f a := rfl

theorem exceptBind_eq_ok {α β : Type} {x : Except ProgErr α} {f : α → Except ProgErr β}
    {b : β} : x >>= f = Except.ok b ↔ ∃ a, x = Except.ok a ∧ f a = Except.ok b := by
  cases x <;> simp [Bind.bind, Except.bind]

theorem exceptBind_eq_error {α β : Type} {x : Except ProgErr α} {f : α → Except ProgErr β}
    {e : ProgErr} :
    x >>= f = Except.error e ↔
      x = Except.error e ∨ ∃ a, x = Except.ok a ∧ f a = Except.error e := by
  cases x <;> simp [Bind.bind, Except.bind]

/-! Further helper lemmas for tracing the processor pipeline. -/

theorem guard_ok_iff (c : Prop) [Decidable c] (e : ProgErr) (u : Unit) :
    ((if c then Except.ok () else Except.error e) = Except.ok u) ↔ c := by
  split <;> simp_all

theorem check_ok_iff (c : Prop) [Decidable c] (e : ProgErr) (u : Unit) :
    ((if c then Except.error e else Except.ok ()) = Except.ok u) ↔ ¬c := by
  split <;> simp_all

theorem ite_error_left_eq_ok {β : Type} (c : Prop) [Decidable c] (e : ProgErr)
    (x : Except ProgErr β) (b : β) :
    ((if c then Except.error e else x) = Except.ok b) ↔ ¬c ∧ x = Except.ok b := by
  split <;> simp_all

theorem bind_congr' {α β : Type} {x : Except ProgErr α} {f g : α → Except ProgErr β}
    (h : ∀ a, x = Except.ok a → f a = g a) : x >>= f = x >>= g := by
  cases x with
  | error e => rfl
  | ok a => exact h a rfl

/-- Anatomy of a successful seven-account validation run: the metadata, token
account and bump come from the collaborators, the effective creator is the
payer, and the output record is `builtChecksOut`. -/
theorem processChecks_seven_ok {env : Env} {programId : Pubkey}
    {a0 a1 a2 a3 a4 a5 a6 : AccountInfo} {pre : ChecksOut}
    (h : processChecks env programId [a0, a1, a2, a3, a4, a5, a6] = Except.ok pre) :
    ∃ meta tok bump,
      env.metadataFromAccountInfo a1 = Except.ok meta ∧
      env.assertInitialized a3 = Except.ok tok ∧
      pre = builtChecksOut a0 a5 a6 a2.key a5.key tok bump := by
  simp only [processChecks, nextAccountInfo, ok_bind] at h
  simp only [List.length_nil, show ((0 : Nat) == 1) = false from rfl,
    Bool.false_eq_true, if_false, pure, Except.pure, ok_bind] at h
  simp only [exceptBind_eq_ok, guard_ok_iff, check_ok_iff, ite_error_left_eq_ok,
    error_bind, ok_bind, assertOwnedBy, assertSigner, metadataMintCheck,
    tokenMintCheck, tokenAmountCheck, tokenMetadataMintCheck, Except.ok.injEq,
    not_not, not_lt, Option.getD_none] at h
  obtain ⟨u1, h1, u2, h2, u3, h3, u4, h4, meta, hmeta, u5, h5, ts, hts, hts2,
    tok, htok, u6, h6, u7, h7, u8, h8, bump, hbump, hpre⟩ := h
  exact ⟨meta, tok, bump, hmeta, htok, hpre.symm⟩

/-- Anatomy of a successful eight-account validation run: the effective
creator is the explicit authority account. -/
theorem processChecks_eight_ok {env : Env} {programId : Pubkey}
    {a0 a1 a2 a3 a4 a5 a6 a7 : AccountInfo} {pre : ChecksOut}
    (h : processChecks env programId [a0, a1, a2, a3, a4, a5, a6, a7] = Except.ok pre) :
    ∃ meta tok bump,
      env.metadataFromAccountInfo a1 = Except.ok meta ∧
      env.assertInitialized a3 = Except.ok tok ∧
      pre = builtChecksOut a0 a5 a6 a2.key a7.key tok bump := by
  simp only [processChecks, nextAccountInfo, ok_bind] at h
  simp only [List.length_singleton, show ((1 : Nat) == 1) = true from rfl,
    if_true, pure, Except.pure, ok_bind] at h
  simp only [exceptBind_eq_ok, guard_ok_iff, check_ok_iff, ite_error_left_eq_ok,
    error_bind, ok_bind, assertOwnedBy, assertSigner, metadataMintCheck,
    tokenMintCheck, tokenAmountCheck, tokenMetadataMintCheck, Except.ok.injEq,
    not_not, not_lt, Option.getD_some] at h
  obtain ⟨u1, h1, u2, h2, u3, h3, u4, h4, meta, hmeta, u5, h5, ts, hts, hts2,
    tok, htok, u6, h6, u7, h7, u8, h8, bump, hbump, hpre⟩ := h
  exact ⟨meta, tok, bump, hmeta, htok, hpre.symm⟩

/-- With nine or more accounts, the validation steps behave exactly as in the
seven-account shape: the optional-authority trigger (exactly one remaining
account) does not fire, and every account past the seventh is ignored. -/
theorem processChecks_ignores_extra (env : Env) (programId : Pubkey)
    (a0 a1 a2 a3 a4 a5 a6 a7 a8 : AccountInfo) (r : List AccountInfo) :
    processChecks env programId (a0 :: a1 :: a2 :: a3 :: a4 :: a5 :: a6 :: a7 :: a8 :: r) =
      processChecks env programId [a0, a1, a2, a3, a4, a5, a6] := by
  simp only [processChecks, nextAccountInfo, ok_bind]
  have hlen : ((a7 :: a8 :: r).length == 1) = false := by
    simp [List.length_cons]
  rw [hlen]
  simp only [List.length_nil, show ((0 : Nat) == 1) = false from rfl,
    Bool.false_eq_true, if_false]

/-- C7: for every input to the `create_escrow_account` builder, the produced
instruction's account list is exactly, in order: escrow (writable, non-signer),
metadata (read-only), mint (read-only), token account (read-only), edition
(read-only), payer (writable, signer), system program (read-only), followed by
an eighth read-only signing authority entry exactly when an explicit authority
was supplied; and the instruction data is the one-byte opcode tag with no
further payload. -/
theorem c7_builder_account_list (programId escrowAccount metadataAccount mintAccount
    tokenAccount editionAccount payerAccount authority : Pubkey) :
    create_escrow_account programId escrowAccount metadataAccount mintAccount
        tokenAccount editionAccount payerAccount none =
      { programId := programId
        accounts :=
          [{ pubkey := escrowAccount, isSigner := false, isWritable := true },
           { pubkey := metadataAccount, isSigner := false, isWritable := false },
           { pubkey := mintAccount, isSigner := false, isWritable := false },
           { pubkey := tokenAccount, isSigner := false, isWritable := false },
           { pubkey := editionAccount, isSigner := false, isWritable := false },
           { pubkey := payerAccount, isSigner := true, isWritable := true },
           { pubkey := systemProgramId, isSigner := false, isWritable := false }]
        data := createEscrowAccountInstructionData } ∧
    create_escrow_account programId escrowAccount metadataAccount mintAccount
        tokenAccount editionAccount payerAccount (some authority) =
      { programId := programId
        accounts :=
          [{ pubkey := escrowAccount, isSigner := false, isWritable := true },
           { pubkey := metadataAccount, isSigner := false, isWritable := false },
           { pubkey := mintAccount, isSigner := false, isWritable := false },
           { pubkey := tokenAccount, isSigner := false, isWritable := false },
           { pubkey := editionAccount, isSigner := false, isWritable := false },
           { pubkey := payerAccount, isSigner := true, isWritable := true },
           { pubkey := systemProgramId, isSigner := false, isWritable := false },
           { pubkey := authority, isSigner := true, isWritable := false }]
        data := createEscrowAccountInstructionData } ∧
    createEscrowAccountInstructionData.length = 1 :=
  ⟨rfl, rfl, rfl⟩

/-- C3: each of the three mint cross-checks yields `MintMismatch` when it
fails: a metadata record whose stored mint differs from the mint account's
address makes the processor fail with `MintMismatch` (first conjunct); with the
first check passing, a decoded token account whose mint differs from the mint
account's address makes the processor fail with `MintMismatch` (second
conjunct); and the third cross-check, comparing the token account's mint with
the metadata's stored mint, yields `MintMismatch` whenever the two differ
(third conjunct). -/
theorem c3_mint_mismatch_errors (env : Env) (programId : Pubkey) (st : Ledger)
    (a0 a1 a2 a3 a4 a5 a6 : AccountInfo) (meta : Metadata) (tok : SplTokenAccount) :
    (a1.owner = programId → a2.owner = splTokenId → a3.owner = splTokenId →
      a5.isSigner = true → env.metadataFromAccountInfo a1 = Except.ok meta →
      meta.mint ≠ a2.key →
      processCreateEscrowAccount env programId [a0, a1, a2, a3, a4, a5, a6] st =
        (Except.error ProgErr.MintMismatch, st)) ∧
    (a1.owner = programId → a2.owner = splTokenId → a3.owner = splTokenId →
      a5.isSigner = true → env.metadataFromAccountInfo a1 = Except.ok meta →
      meta.mint = a2.key →
      env.checkTokenStandard a2 (some a4) = Except.ok TokenStandard.NonFungible →
      env.assertInitialized a3 = Except.ok tok → tok.mint ≠ a2.key →
      processCreateEscrowAccount env programId [a0, a1, a2, a3, a4, a5, a6] st =
        (Except.error ProgErr.MintMismatch, st)) ∧
    (tok.mint ≠ meta.mint →
      tokenMetadataMintCheck tok meta = Except.error ProgErr.MintMismatch) := by
  refine ⟨?_, ?_, ?_⟩
  · intro h1 h2 h3 h4 h5 h6
    have hc : processChecks env programId [a0, a1, a2, a3, a4, a5, a6] =
        Except.error ProgErr.MintMismatch := by
      simp [processChecks, nextAccountInfo, ok_bind, error_bind, assertOwnedBy,
        assertSigner, metadataMintCheck, h1, h2, h3, h4, h5, h6]
    simp [processCreateEscrowAccount, hc]
  · intro h1 h2 h3 h4 h5 h6 h7 h8 h9
    have hc : processChecks env programId [a0, a1, a2, a3, a4, a5, a6] =
        Except.error ProgErr.MintMismatch := by
      simp [processChecks, nextAccountInfo, ok_bind, error_bind, assertOwnedBy,
        assertSigner, metadataMintCheck, tokenMintCheck, h1, h2, h3, h4, h5, h6,
        h7, h8, h9]
    simp [processCreateEscrowAccount, hc]
  · intro h
    simp [tokenMetadataMintCheck, h]

/-- C3 witness: with concrete inputs, a deviating metadata mint alone, a
deviating token-account mint alone, and a token-account mint deviating from
the metadata mint each produce `MintMismatch`. -/
theorem c3_mint_mismatch_errors_witness :
    processCreateEscrowAccount envBadMetadataMint 7 accountsOk [] =
      (Except.error ProgErr.MintMismatch, []) ∧
    processCreateEscrowAccount envBadTokenMint 7 accountsOk [] =
      (Except.error ProgErr.MintMismatch, []) ∧
    tokenMetadataMintCheck { mint := 99, owner := 15, amount := 1 } { mint := 12 } =
      Except.error ProgErr.MintMismatch :=
  ⟨(c3_mint_mismatch_errors envBadMetadataMint 7 []
      { key := 10, owner := crateId, isSigner := false }
      { key := 11, owner := 7, isSigner := false }
      { key := 12, owner := splTokenId, isSigner := false }
      { key := 13, owner := splTokenId, isSigner := false }
      { key := 14, owner := 7, isSigner := false }
      { key := 15, owner := 0, isSigner := true }
      { key := 0, owner := 0, isSigner := false }
      { mint := 99 } { mint := 12, owner := 15, amount := 1 }).1
    rfl rfl rfl rfl rfl (by decide),
   (c3_mint_mismatch_errors envBadTokenMint 7 []
      { key := 10, owner := crateId, isSigner := false }
      { key := 11, owner := 7, isSigner := false }
      { key := 12, owner := splTokenId, isSigner := false }
      { key := 13, owner := splTokenId, isSigner := false }
      { key := 14, owner := 7, isSigner := false }
      { key := 15, owner := 0, isSigner := true }
      { key := 0, owner := 0, isSigner := false }
      { mint := 12 } { mint := 99, owner := 15, amount := 1 }).2.1
    rfl rfl rfl rfl rfl rfl rfl rfl (by decide),
   (c3_mint_mismatch_errors envOk 7 []
      { key := 10, owner := crateId, isSigner := false }
      { key := 11, owner := 7, isSigner := false }
      { key := 12, owner := splTokenId, isSigner := false }
      { key := 13, owner := splTokenId, isSigner := false }
      { key := 14, owner := 7, isSigner := false }
      { key := 15, owner := 0, isSigner := true }
      { key := 0, owner := 0, isSigner := false }
      { mint := 12 } { mint := 99, owner := 15, amount := 1 }).2.2
    (by decide)⟩

/-- C5: the balance check rejects exactly the amounts strictly below 1 with
`NotEnoughTokens` (first conjunct); an amount of exactly 1 passes it (second
conjunct); and an invocation reaching the balance check with a zero-amount
token account makes the processor fail with `NotEnoughTokens` (third
conjunct). -/
theorem c5_balance_boundary (env : Env) (programId : Pubkey) (st : Ledger)
    (a0 a1 a2 a3 a4 a5 a6 : AccountInfo) (meta : Metadata) (tok : SplTokenAccount) :
    (tokenAmountCheck tok = Except.error ProgErr.NotEnoughTokens ↔ tok.amount < 1) ∧
    (tok.amount = 1 → tokenAmountCheck tok = Except.ok ()) ∧
    (a1.owner = programId → a2.owner = splTokenId → a3.owner = splTokenId →
      a5.isSigner = true → env.metadataFromAccountInfo a1 = Except.ok meta →
      meta.mint = a2.key →
      env.checkTokenStandard a2 (some a4) = Except.ok TokenStandard.NonFungible →
      env.assertInitialized a3 = Except.ok tok → tok.mint = a2.key → tok.amount = 0 →
      processCreateEscrowAccount env programId [a0, a1, a2, a3, a4, a5, a6] st =
        (Except.error ProgErr.NotEnoughTokens, st)) := by
  refine ⟨?_, ?_, ?_⟩
  · unfold tokenAmountCheck
    split <;> simp_all
  · intro h
    simp [tokenAmountCheck, h]
  · intro h1 h2 h3 h4 h5 h6 h7 h8 h9 h10
    have hc : processChecks env programId [a0, a1, a2, a3, a4, a5, a6] =
        Except.error ProgErr.NotEnoughTokens := by
      simp [processChecks, nextAccountInfo, ok_bind, error_bind, assertOwnedBy,
        assertSigner, metadataMintCheck, tokenMintCheck, tokenAmountCheck, h1, h2,
        h3, h4, h5, h6, h7, h8, h9, h10]
    simp [processCreateEscrowAccount, hc]

/-- C5 witness: at concrete inputs, the check rejects amount 0, accepts
amount 1, and the processor reaching the balance check with a zero-amount
token account fails with `NotEnoughTokens`. -/
theorem c5_balance_boundary_witness :
    (tokenAmountCheck { mint := 12, owner := 15, amount := 0 } =
      Except.error ProgErr.NotEnoughTokens) ∧
    (tokenAmountCheck { mint := 12, owner := 15, amount := 1 } = Except.ok ()) ∧
    processCreateEscrowAccount envZeroAmount 7 accountsOk [] =
      (Except.error ProgErr.NotEnoughTokens, []) :=
  ⟨(c5_balance_boundary envZeroAmount 7 []
      { key := 10, owner := crateId, isSigner := false }
      { key := 11, owner := 7, isSigner := false }
      { key := 12, owner := splTokenId, isSigner := false }
      { key := 13, owner := splTokenId, isSigner := false }
      { key := 14, owner := 7, isSigner := false }
      { key := 15, owner := 0, isSigner := true }
      { key := 0, owner := 0, isSigner := false }
      { mint := 12 } { mint := 12, owner := 15, amount := 0 }).1.mpr (by decide),
   (c5_balance_boundary envZeroAmount 7 []
      { key := 10, owner := crateId, isSigner := false }
      { key := 11, owner := 7, isSigner := false }
      { key := 12, owner := splTokenId, isSigner := false }
      { key := 13, owner := splTokenId, isSigner := false }
      { key := 14, owner := 7, isSigner := false }
      { key := 15, owner := 0, isSigner := true }
      { key := 0, owner := 0, isSigner := false }
      { mint := 12 } { mint := 12, owner := 15, amount := 1 }).2.1 rfl,
   (c5_balance_boundary envZeroAmount 7 []
      { key := 10, owner := crateId, isSigner := false }
      { key := 11, owner := 7, isSigner := false }
      { key := 12, owner := splTokenId, isSigner := false }
      { key := 13, owner := splTokenId, isSigner := false }
      { key := 14, owner := 7, isSigner := false }
      { key := 15, owner := 0, isSigner := true }
      { key := 0, owner := 0, isSigner := false }
      { mint := 12 } { mint := 12, owner := 15, amount := 0 }).2.2
    rfl rfl rfl rfl rfl rfl rfl rfl rfl rfl⟩

/-- C4: an invocation whose accounts pass the intake, ownership, signer and
metadata-mint checks, but whose asset classifier reports any classification
other than non-fungible, fails with `MustBeNonFungible` — with no hypothesis
at all about the token account's decoded contents or balance, since the
classification check precedes the token-account load. -/
theorem c4_must_be_nonfungible (env : Env) (programId : Pubkey) (st : Ledger)
    (a0 a1 a2 a3 a4 a5 a6 : AccountInfo) (meta : Metadata) (standard : TokenStandard)
    (h1 : a1.owner = programId) (h2 : a2.owner = splTokenId)
    (h3 : a3.owner = splTokenId) (h4 : a5.isSigner = true)
    (h5 : env.metadataFromAccountInfo a1 = Except.ok meta) (h6 : meta.mint = a2.key)
    (h7 : env.checkTokenStandard a2 (some a4) = Except.ok standard)
    (h8 : standard ≠ TokenStandard.NonFungible) :
    processCreateEscrowAccount env programId [a0, a1, a2, a3, a4, a5, a6] st =
      (Except.error ProgErr.MustBeNonFungible, st) := by
  have hc : processChecks env programId [a0, a1, a2, a3, a4, a5, a6] =
      Except.error ProgErr.MustBeNonFungible := by
    simp [processChecks, nextAccountInfo, ok_bind, error_bind, assertOwnedBy,
      assertSigner, metadataMintCheck, h1, h2, h3, h4, h5, h6, h7, h8]
  simp [processCreateEscrowAccount, hc]

/-- C4 witness: with the classifier reporting `Fungible` (and the token
decoder even reporting a zero balance), the processor fails with
`MustBeNonFungible`. -/
theorem c4_must_be_nonfungible_witness :
    processCreateEscrowAccount envFungible 7 accountsOk [] =
      (Except.error ProgErr.MustBeNonFungible, []) :=
  c4_must_be_nonfungible envFungible 7 []
    { key := 10, owner := crateId, isSigner := false }
    { key := 11, owner := 7, isSigner := false }
    { key := 12, owner := splTokenId, isSigner := false }
    { key := 13, owner := splTokenId, isSigner := false }
    { key := 14, owner := 7, isSigner := false }
    { key := 15, owner := 0, isSigner := true }
    { key := 0, owner := 0, isSigner := false }
    { mint := 12 } TokenStandard.Fungible
    rfl rfl rfl rfl rfl rfl rfl (by decide)

/-- C2: for every successful run, the authority variant stored in the escrow
record is `TokenOwner` when the decoded token account's owner equals the
effective creator principal and `Creator` of that principal's address
otherwise, where the effective creator is the payer in the seven-account shape
(first conjunct) and the explicit authority account in the eight-account shape
(second conjunct). -/
theorem c2_authority_resolution (env : Env) (programId : Pubkey) (st : Ledger)
    (a0 a1 a2 a3 a4 a5 a6 a7 : AccountInfo) (tok : SplTokenAccount)
    (out : ProcOutcome) (l' : Ledger) :
    (env.assertInitialized a3 = Except.ok tok →
      processCreateEscrowAccount env programId [a0, a1, a2, a3, a4, a5, a6] st =
        (Except.ok out, l') →
      out.toe.authority = if tok.owner = a5.key then EscrowAuthority.TokenOwner
        else EscrowAuthority.Creator a5.key) ∧
    (env.assertInitialized a3 = Except.ok tok →
      processCreateEscrowAccount env programId [a0, a1, a2, a3, a4, a5, a6, a7] st =
        (Except.ok out, l') →
      out.toe.authority = if tok.owner = a7.key then EscrowAuthority.TokenOwner
        else EscrowAuthority.Creator a7.key) := by
  constructor
  · intro htok hrun
    unfold processCreateEscrowAccount at hrun
    cases hc : processChecks env programId [a0, a1, a2, a3, a4, a5, a6] with
    | error e => rw [hc] at hrun; simp at hrun
    | ok pre =>
      rw [hc] at hrun
      dsimp only [] at hrun
      obtain ⟨meta, tok2, bump, hmeta, htok2, hpre⟩ := processChecks_seven_ok hc
      rw [htok] at htok2
      injection htok2 with htok2
      subst htok2
      rcases ha : env.createOrAllocate programId pre.escrowInfo pre.systemInfo
          pre.payerInfo pre.serialized.length pre.escrowAuthoritySeeds st with ⟨r, l⟩
      rw [ha] at hrun
      cases r with
      | error e => simp at hrun
      | ok u =>
        simp only [Prod.mk.injEq, Except.ok.injEq] at hrun
        obtain ⟨hout, hl⟩ := hrun
        rw [← hout, hpre]
        simp [builtChecksOut]
  · intro htok hrun
    unfold processCreateEscrowAccount at hrun
    cases hc : processChecks env programId [a0, a1, a2, a3, a4, a5, a6, a7] with
    | error e => rw [hc] at hrun; simp at hrun
    | ok pre =>
      rw [hc] at hrun
      dsimp only [] at hrun
      obtain ⟨meta, tok2, bump, hmeta, htok2, hpre⟩ := processChecks_eight_ok hc
      rw [htok] at htok2
      injection htok2 with htok2
      subst htok2
      rcases ha : env.createOrAllocate programId pre.escrowInfo pre.systemInfo
          pre.payerInfo pre.serialized.length pre.escrowAuthoritySeeds st with ⟨r, l⟩
      rw [ha] at hrun
      cases r with
      | error e => simp at hrun
      | ok u =>
        simp only [Prod.mk.injEq, Except.ok.injEq] at hrun
        obtain ⟨hout, hl⟩ := hrun
        rw [← hout, hpre]
        simp [builtChecksOut]

/-- C2 witness: a successful run without explicit authority (token owner 15 =
payer address 15) stores `TokenOwner`; a successful run with explicit
authority 20 (distinct from the token owner 15) stores `Creator 20`. -/
theorem c2_authority_resolution_witness :
    (envOk.assertInitialized { key := 13, owner := splTokenId, isSigner := false } =
        Except.ok tokOk ∧
      processCreateEscrowAccount envOk 7 accountsOk [] =
        (Except.ok outcomeOkPayer, [(10, serializeTokenOwnedEscrow toeOkPayer)]) ∧
      outcomeOkPayer.toe.authority = EscrowAuthority.TokenOwner) ∧
    (envOk.assertInitialized { key := 13, owner := splTokenId, isSigner := false } =
        Except.ok tokOk ∧
      processCreateEscrowAccount envOk 7 accountsWithAuthority [] =
        (Except.ok outcomeOkCreator, [(10, serializeTokenOwnedEscrow toeOkCreator)]) ∧
      outcomeOkCreator.toe.authority = EscrowAuthority.Creator 20) :=
  ⟨⟨rfl, rfl,
    ((c2_authority_resolution envOk 7 []
        { key := 10, owner := crateId, isSigner := false }
        { key := 11, owner := 7, isSigner := false }
        { key := 12, owner := splTokenId, isSigner := false }
        { key := 13, owner := splTokenId, isSigner := false }
        { key := 14, owner := 7, isSigner := false }
        { key := 15, owner := 0, isSigner := true }
        { key := 0, owner := 0, isSigner := false }
        authorityAcc tokOk outcomeOkPayer
        [(10, serializeTokenOwnedEscrow toeOkPayer)]).1 rfl rfl).trans
      (by decide)⟩,
   ⟨rfl, rfl,
    ((c2_authority_resolution envOk 7 []
        { key := 10, owner := crateId, isSigner := false }
        { key := 11, owner := 7, isSigner := false }
        { key := 12, owner := splTokenId, isSigner := false }
        { key := 13, owner := splTokenId, isSigner := false }
        { key := 14, owner := 7, isSigner := false }
        { key := 15, owner := 0, isSigner := true }
        { key := 0, owner := 0, isSigner := false }
        authorityAcc tokOk outcomeOkCreator
        [(10, serializeTokenOwnedEscrow toeOkCreator)]).2 rfl rfl).trans
      (by decide)⟩⟩

/-- Every successful validation run passes `crate::id()` — not the
`program_id` parameter — to the derivation check. -/
theorem processChecks_ok_derivation {env : Env} {programId : Pubkey}
    {accounts : List AccountInfo} {pre : ChecksOut}
    (h : processChecks env programId accounts = Except.ok pre) :
    pre.derivationProgramId = crateId := by
  rcases accounts with _ | ⟨a0, _ | ⟨a1, _ | ⟨a2, _ | ⟨a3, _ | ⟨a4, _ | ⟨a5,
    _ | ⟨a6, rest⟩⟩⟩⟩⟩⟩⟩
  · exact Except.noConfusion h
  · exact Except.noConfusion h
  · exact Except.noConfusion h
  · exact Except.noConfusion h
  · exact Except.noConfusion h
  · exact Except.noConfusion h
  · exact Except.noConfusion h
  · rcases rest with _ | ⟨a7, _ | ⟨a8, r⟩⟩
    · obtain ⟨m, t, b, _, _, hpre⟩ := processChecks_seven_ok h
      rw [hpre]; rfl
    · obtain ⟨m, t, b, _, _, hpre⟩ := processChecks_eight_ok h
      rw [hpre]; rfl
    · rw [processChecks_ignores_extra] at h
      obtain ⟨m, t, b, _, _, hpre⟩ := processChecks_seven_ok h
      rw [hpre]; rfl

/-- C8: on every successful run, the derivation check was performed against
the hardcoded crate identity `crate::id()` while the allocated account is
owned by the `program_id` parameter; whenever the two differ, the derivation
and allocation therefore use different program identities. -/
theorem c8_derivation_vs_alloc_identity (env : Env) (programId : Pubkey)
    (accounts : List AccountInfo) (st : Ledger) (out : ProcOutcome) (l' : Ledger)
    (h : processCreateEscrowAccount env programId accounts st = (Except.ok out, l')) :
    out.derivationProgramId = crateId ∧ out.allocOwner = programId ∧
      (programId ≠ crateId → out.allocOwner ≠ out.derivationProgramId) := by
  unfold processCreateEscrowAccount at h
  cases hc : processChecks env programId accounts with
  | error e => rw [hc] at h; simp at h
  | ok pre =>
    rw [hc] at h
    dsimp only [] at h
    rcases ha : env.createOrAllocate programId pre.escrowInfo pre.systemInfo
        pre.payerInfo pre.serialized.length pre.escrowAuthoritySeeds st with ⟨r, l⟩
    rw [ha] at h
    cases r with
    | error e => simp at h
    | ok u =>
      simp only [Prod.mk.injEq, Except.ok.injEq] at h
      obtain ⟨hout, hl⟩ := h
      have hderiv := processChecks_ok_derivation hc
      refine ⟨?_, ?_, ?_⟩
      · rw [← hout]; exact hderiv
      · rw [← hout]
      · intro hne
        rw [← hout]
        simpa [hderiv] using hne

/-- C8 witness: a successful concrete run under program identity 7 (distinct
from the crate identity) derives against the crate identity but allocates
under owner 7. -/
theorem c8_derivation_vs_alloc_identity_witness :
    processCreateEscrowAccount envOk 7 accountsOk [] =
      (Except.ok outcomeOkPayer, [(10, serializeTokenOwnedEscrow toeOkPayer)]) ∧
    outcomeOkPayer.derivationProgramId = crateId ∧
    outcomeOkPayer.allocOwner = 7 ∧
    outcomeOkPayer.allocOwner ≠ outcomeOkPayer.derivationProgramId :=
  ⟨rfl,
   (c8_derivation_vs_alloc_identity envOk 7 accountsOk []
     outcomeOkPayer [(10, serializeTokenOwnedEscrow toeOkPayer)] rfl).1,
   (c8_derivation_vs_alloc_identity envOk 7 accountsOk []
     outcomeOkPayer [(10, serializeTokenOwnedEscrow toeOkPayer)] rfl).2.1,
   (c8_derivation_vs_alloc_identity envOk 7 accountsOk []
     outcomeOkPayer [(10, serializeTokenOwnedEscrow toeOkPayer)] rfl).2.2
     (by decide)⟩

/-- C1 counterexample: two concrete refutations of the claim as stated. A
nine-account list does not fail with `InvalidInstructionAccounts` — it
succeeds outright; and the empty account list fails with
`NotEnoughAccountKeys`, not `InvalidInstructionAccounts`. -/
theorem c1_intake_error_counterexample :
    (processCreateEscrowAccount envOk 7 accountsNine []).1 ≠
      Except.error ProgErr.InvalidInstructionAccounts ∧
    (processCreateEscrowAccount envOk 7 accountsNine []).1 =
      Except.ok outcomeOkPayer ∧
    (processCreateEscrowAccount envOk 7 [] []).1 =
      Except.error ProgErr.NotEnoughAccountKeys := by
  refine ⟨?_, rfl, rfl⟩
  intro h
  rw [show (processCreateEscrowAccount envOk 7 accountsNine []).1 =
    Except.ok outcomeOkPayer from rfl] at h
  exact Except.noConfusion h

/-- C1 (amended): an account list shorter than seven makes the processor fail
with `NotEnoughAccountKeys` (the iterator-exhaustion error), leaving the
ledger unchanged; an account list of nine or more raises no intake error at
all and is processed exactly as the seven-account shape. -/
theorem c1_intake_error_amended (env : Env) (programId : Pubkey)
    (accounts : List AccountInfo) (st : Ledger) :
    (accounts.length < 7 →
      processCreateEscrowAccount env programId accounts st =
        (Except.error ProgErr.NotEnoughAccountKeys, st)) ∧
    (9 ≤ accounts.length →
      processCreateEscrowAccount env programId accounts st =
        processCreateEscrowAccount env programId (accounts.take 7) st) := by
  constructor
  · intro h
    rcases accounts with _ | ⟨a0, _ | ⟨a1, _ | ⟨a2, _ | ⟨a3, _ | ⟨a4, _ | ⟨a5,
      _ | ⟨a6, rest⟩⟩⟩⟩⟩⟩⟩
    · rfl
    · rfl
    · rfl
    · rfl
    · rfl
    · rfl
    · rfl
    · exfalso
      simp [List.length_cons] at h
      omega
  · intro h
    rcases accounts with _ | ⟨a0, _ | ⟨a1, _ | ⟨a2, _ | ⟨a3, _ | ⟨a4, _ | ⟨a5,
      _ | ⟨a6, _ | ⟨a7, _ | ⟨a8, r⟩⟩⟩⟩⟩⟩⟩⟩⟩
    · exfalso; simp only [List.length_cons, List.length_nil] at h; omega
    · exfalso; simp only [List.length_cons, List.length_nil] at h; omega
    · exfalso; simp only [List.length_cons, List.length_nil] at h; omega
    · exfalso; simp only [List.length_cons, List.length_nil] at h; omega
    · exfalso; simp only [List.length_cons, List.length_nil] at h; omega
    · exfalso; simp only [List.length_cons, List.length_nil] at h; omega
    · exfalso; simp only [List.length_cons, List.length_nil] at h; omega
    · exfalso; simp only [List.length_cons, List.length_nil] at h; omega
    · exfalso; simp only [List.length_cons, List.length_nil] at h; omega
    · unfold processCreateEscrowAccount
      rw [show (a0 :: a1 :: a2 :: a3 :: a4 :: a5 :: a6 :: a7 :: a8 :: r).take 7 =
        [a0, a1, a2, a3, a4, a5, a6] from rfl]
      rw [processChecks_ignores_extra]

/-- C1 witness: the amended statement applied to the empty list and to a
concrete nine-account list. -/
theorem c1_intake_error_amended_witness :
    processCreateEscrowAccount envOk 7 [] [] =
      (Except.error ProgErr.NotEnoughAccountKeys, []) ∧
    processCreateEscrowAccount envOk 7 accountsNine [] =
      processCreateEscrowAccount envOk 7 (accountsNine.take 7) [] :=
  ⟨(c1_intake_error_amended envOk 7 [] []).1 (by decide),
   (c1_intake_error_amended envOk 7 accountsNine []).2 (by decide)⟩

/-- C10: with nine or more accounts the processor raises no shape error and
behaves exactly as on the first seven accounts alone (the seven-account, no
explicit authority shape, whose effective creator is the payer): every
account past the seventh is ignored. -/
theorem c10_nine_or_more_as_seven (env : Env) (programId : Pubkey)
    (accounts : List AccountInfo) (st : Ledger) (h : 9 ≤ accounts.length) :
    processCreateEscrowAccount env programId accounts st =
      processCreateEscrowAccount env programId (accounts.take 7) st := by
  rcases accounts with _ | ⟨a0, _ | ⟨a1, _ | ⟨a2, _ | ⟨a3, _ | ⟨a4, _ | ⟨a5,
    _ | ⟨a6, _ | ⟨a7, _ | ⟨a8, r⟩⟩⟩⟩⟩⟩⟩⟩⟩
  · exfalso; simp only [List.length_cons, List.length_nil] at h; omega
  · exfalso; simp only [List.length_cons, List.length_nil] at h; omega
  · exfalso; simp only [List.length_cons, List.length_nil] at h; omega
  · exfalso; simp only [List.length_cons, List.length_nil] at h; omega
  · exfalso; simp only [List.length_cons, List.length_nil] at h; omega
  · exfalso; simp only [List.length_cons, List.length_nil] at h; omega
  · exfalso; simp only [List.length_cons, List.length_nil] at h; omega
  · exfalso; simp only [List.length_cons, List.length_nil] at h; omega
  · exfalso; simp only [List.length_cons, List.length_nil] at h; omega
  · unfold processCreateEscrowAccount
    rw [show (a0 :: a1 :: a2 :: a3 :: a4 :: a5 :: a6 :: a7 :: a8 :: r).take 7 =
      [a0, a1, a2, a3, a4, a5, a6] from rfl]
    rw [processChecks_ignores_extra]

/-- C10 witness: the concrete nine-account list is processed exactly as its
first seven accounts, succeeding with the payer-based outcome. -/
theorem c10_nine_or_more_as_seven_witness :
    processCreateEscrowAccount envOk 7 accountsNine [] =
      processCreateEscrowAccount envOk 7 (accountsNine.take 7) [] ∧
    processCreateEscrowAccount envOk 7 accountsNine [] =
      (Except.ok outcomeOkPayer, [(10, serializeTokenOwnedEscrow toeOkPayer)]) :=
  ⟨c10_nine_or_more_as_seven envOk 7 accountsNine [] (by decide), rfl⟩

/-- C6: when the processor returns an error, the ledger is unchanged — every
validation, deserialization, derivation and serialization step precedes the
two state-mutating steps, and a failing allocator (by its atomic collaborator
contract, the hypothesis) also leaves the ledger as it was. -/
theorem c6_error_leaves_ledger (env : Env) (programId : Pubkey)
    (accounts : List AccountInfo) (st : Ledger) (e : ProgErr)
    (halloc : ∀ o a b c n s l e2 l2,
      env.createOrAllocate o a b c n s l = (Except.error e2, l2) → l2 = l)
    (h : (processCreateEscrowAccount env programId accounts st).1 = Except.error e) :
    (processCreateEscrowAccount env programId accounts st).2 = st := by
  unfold processCreateEscrowAccount at h ⊢
  cases hc : processChecks env programId accounts with
  | error e2 => rfl
  | ok pre =>
    rw [hc] at h
    dsimp only [] at h ⊢
    rcases ha : env.createOrAllocate programId pre.escrowInfo pre.systemInfo
        pre.payerInfo pre.serialized.length pre.escrowAuthoritySeeds st with ⟨r, l⟩
    cases r with
    | error e2 => exact halloc _ _ _ _ _ _ _ _ _ ha
    | ok u =>
      rw [ha] at h
      exact Except.noConfusion h

/-- C6 witness: a failing concrete run (empty account list, allocator that is
atomic because it never fails) leaves the empty ledger unchanged. -/
theorem c6_error_leaves_ledger_witness :
    (processCreateEscrowAccount envOk 7 [] []).1 =
      Except.error ProgErr.NotEnoughAccountKeys ∧
    (processCreateEscrowAccount envOk 7 [] []).2 = [] :=
  ⟨rfl,
   c6_error_leaves_ledger envOk 7 [] [] ProgErr.NotEnoughAccountKeys
     (by intro o a b c n s l e2 l2 hx; simp [envOk] at hx) rfl⟩

/-- Removing the third mint cross-check does not change the validation
pipeline's result: by the time it runs, the two earlier mint checks force
the token account's mint to equal the metadata's stored mint. -/
theorem processChecks_skip_third_eq (env : Env) (programId : Pubkey)
    (accounts : List AccountInfo) :
    processChecks env programId accounts =
      processChecksSkipThirdMintCheck env programId accounts := by
  rcases accounts with _ | ⟨a0, _ | ⟨a1, _ | ⟨a2, _ | ⟨a3, _ | ⟨a4, _ | ⟨a5,
    _ | ⟨a6, rest⟩⟩⟩⟩⟩⟩⟩
  · simp only [processChecks, processChecksSkipThirdMintCheck, nextAccountInfo,
      ok_bind, error_bind]
  · simp only [processChecks, processChecksSkipThirdMintCheck, nextAccountInfo,
      ok_bind, error_bind]
  · simp only [processChecks, processChecksSkipThirdMintCheck, nextAccountInfo,
      ok_bind, error_bind]
  · simp only [processChecks, processChecksSkipThirdMintCheck, nextAccountInfo,
      ok_bind, error_bind]
  · simp only [processChecks, processChecksSkipThirdMintCheck, nextAccountInfo,
      ok_bind, error_bind]
  · simp only [processChecks, processChecksSkipThirdMintCheck, nextAccountInfo,
      ok_bind, error_bind]
  · simp only [processChecks, processChecksSkipThirdMintCheck, nextAccountInfo,
      ok_bind, error_bind]
  · simp only [processChecks, processChecksSkipThirdMintCheck, nextAccountInfo,
      ok_bind]
    split
    · refine bind_congr' fun p hp => ?_
      simp only [pure_bind']
      refine bind_congr' fun u1 h1 => ?_
      refine bind_congr' fun u2 h2 => ?_
      refine bind_congr' fun u3 h3 => ?_
      refine bind_congr' fun u4 h4 => ?_
      refine bind_congr' fun metadata hmeta => ?_
      refine bind_congr' fun u5 hm => ?_
      refine bind_congr' fun standard hstd => ?_
      split
      · simp only [error_bind]
      · refine bind_congr' fun tokenAccount htok => ?_
        refine bind_congr' fun u7 htm => ?_
        refine bind_congr' fun u8 h8 => ?_
        simp only [metadataMintCheck, check_ok_iff] at hm
        simp only [tokenMintCheck, check_ok_iff] at htm
        have hmm : tokenAccount.mint = metadata.mint :=
          (not_ne_iff.mp htm).trans (not_ne_iff.mp hm).symm
        have h3c : tokenMetadataMintCheck tokenAccount metadata = Except.ok () := by
          simp [tokenMetadataMintCheck, hmm]
        rw [h3c, ok_bind]
    · simp only [pure_bind']
      refine bind_congr' fun u1 h1 => ?_
      refine bind_congr' fun u2 h2 => ?_
      refine bind_congr' fun u3 h3 => ?_
      refine bind_congr' fun u4 h4 => ?_
      refine bind_congr' fun metadata hmeta => ?_
      refine bind_congr' fun u5 hm => ?_
      refine bind_congr' fun standard hstd => ?_
      split
      · simp only [error_bind]
      · refine bind_congr' fun tokenAccount htok => ?_
        refine bind_congr' fun u7 htm => ?_
        refine bind_congr' fun u8 h8 => ?_
        simp only [metadataMintCheck, check_ok_iff] at hm
        simp only [tokenMintCheck, check_ok_iff] at htm
        have hmm : tokenAccount.mint = metadata.mint :=
          (not_ne_iff.mp htm).trans (not_ne_iff.mp hm).symm
        have h3c : tokenMetadataMintCheck tokenAccount metadata = Except.ok () := by
          simp [tokenMetadataMintCheck, hmm]
        rw [h3c, ok_bind]

/-- C9: whenever execution reaches the third mint cross-check, that check
passes — its `MintMismatch` branch is unreachable. Formally, the processor is
extensionally equal to the variant that skips the check, because the earlier
checks metadata-mint = mint-address and token-mint = mint-address already
imply the compared equality by transitivity. -/
theorem c9_third_mint_check_unreachable (env : Env) (programId : Pubkey)
    (accounts : List AccountInfo) (ledger : Ledger) :
    processCreateEscrowAccount env programId accounts ledger =
      processCreateEscrowAccountSkipThirdMintCheck env programId accounts ledger := by
  unfold processCreateEscrowAccount processCreateEscrowAccountSkipThirdMintCheck
  rw [processChecks_skip_third_eq]

end CreateEscrow
